import Mathlib

/-!
Verification development for the Animation playback engine of
`led-matrix-battery` (file
`src/led_matrix_battery/led_matrix/display/animations/animation.py`).

The Python `Animation` class is shallowly embedded as a Lean structure
`AnimState` together with one Lean function per operation.  Python
exceptions become an explicit error type `AnimError`; every operation
returns the post-call state (for a raised exception this is the state of
the object at the moment the exception propagates, which matters because
`play` mutates `is_playing` before it can crash).  The unbounded `while`
loop of `play` is embedded with explicit fuel counting its iterations, so
non-termination is the statement that no amount of fuel ever reaches the
loop exit.

Python dynamic typing, where it matters to the claims (`isinstance`
checks that accept `bool` as `int`), is embedded via a small value type
`PyVal` mirroring exactly the distinctions the source code can observe.
Frame durations are embedded as rationals: the source only stores,
copies and order-compares them, so no floating-point rounding is ever
observable in the embedded operations.
-/

/-- Device identities are opaque in the source (`ListPortInfo`); only their
identity is ever used, so we embed them as naturals. -/
abbrev Device := Nat

/-- A frame; its pixel grid is opaque to the animation core (spec §3), only
the mutable duration is observable. -/
structure Frame where
  duration : ℚ
deriving DecidableEq

/-- A frame record handed to the constructor: a grid (opaque) plus an
optional explicit duration.  `duration = none` stands for a record that
does not supply a duration. -/
structure FrameRec where
  duration : Option ℚ
deriving DecidableEq

/-- Modelled from the spec: `Frame.from_dict` (external, in
`frame/base.py`, not under `src/`) yields a frame whose duration is the
record's explicit duration, or the sentinel `Frame.DEFAULT_DURATION` when
the record supplies none; `Animation.__init__` (lines 89-93) then replaces
the sentinel by the animation's fallback.  We embed the composition of the
two steps: the normalized duration of the constructed frame. -/
def normalizeDuration (rd : Option ℚ) (fallback : ℚ) : ℚ :=
  rd.getD fallback

/-- Python runtime values, distinguished exactly as far as the source's
`isinstance` checks and arithmetic can observe. -/
inductive PyVal where
  | pyInt (n : Int)
  | pyBool (b : Bool)
  | pyFloat (q : ℚ)
  | pyStr (s : String)
  | pyNone
deriving DecidableEq

/-- Python `isinstance(v, int)`: true for `int` and for `bool` (a subclass
of `int`). -/
def PyVal.isInstInt : PyVal → Bool
  | .pyInt _ => true
  | .pyBool _ => true
  | _ => false

/-- Python `isinstance(v, (float, int))`. -/
def PyVal.isInstNumeric : PyVal → Bool
  | .pyInt _ => true
  | .pyBool _ => true
  | .pyFloat _ => true
  | _ => false

/-- Numeric value of a Python value (``True == 1``, ``False == 0``). -/
def PyVal.toQ : PyVal → ℚ
  | .pyInt n => (n : ℚ)
  | .pyBool b => if b then 1 else 0
  | .pyFloat q => q
  | _ => 0

/-- Integer value of a Python value usable as an index. -/
def PyVal.toInt : PyVal → Int
  | .pyInt n => n
  | .pyBool b => if b then 1 else 0
  | _ => 0

/-- The error kinds of the spec (§7) plus the unhandled `TypeError` that
CPython raises when `play` iterates over `None`. -/
inductive AnimError where
  | invalidArgument
  | emptyAnimation
  | outOfBounds
  | notThreadSafe
  | noDevices
  | noneNotIterable
deriving DecidableEq

/-- The mutable state of an `Animation` object.  The threading primitives
are embedded by what the core can observe of them: whether the lock
object has been allocated, whether the pause event exists and is set, and
whether a breathing-thread handle is currently stored. -/
structure AnimState where
  frames : List Frame
  cursor : Int
  fallbackFrameDuration : ℚ
  loop : Bool
  playing : Bool
  devices : List Device
  threadSafe : Bool
  breatheOnPause : Bool
  makingThreadSafe : Bool
  threadLock : Bool
  pauseEventSet : Option Bool
  breathingThread : Bool
deriving DecidableEq

/-- Result of an operation: the returned value or the raised error,
together with the state of the object afterwards. -/
inductive OpResult (α : Type) where
  | ok (val : α) (s : AnimState)
  | err (e : AnimError) (s : AnimState)
deriving DecidableEq

/-- The state carried by an operation result. -/
def OpResult.stateOf {α : Type} : OpResult α → AnimState
  | .ok _ s => s
  | .err _ s => s

/-- The private-field values `Animation.__init__` assigns before any
parameter is consulted (lines 61-71 of the source). -/
def initState : AnimState where
  frames := []
  cursor := 0
  fallbackFrameDuration := 0
  loop := false
  playing := false
  devices := []
  threadSafe := false
  breatheOnPause := false
  makingThreadSafe := false
  threadLock := false
  pauseEventSet := Option.none
  breathingThread := false

/-- `Animation.make_thread_safe(breathe_on_pause=False)` (lines 261-267):
no-op when already thread-safe; otherwise allocates the lock and the
(initially cleared) pause event, overwrites `breathe_on_pause` with its
own parameter, and marks the animation thread-safe (the
`is_thread_safe` setter does not re-enter because
`__making_thread_safe` is set). -/
def makeThreadSafe (s : AnimState) (breatheOnPauseArg : Bool) : AnimState :=
  if s.threadSafe then s
  else
    { s with
      makingThreadSafe := true
      threadLock := true
      pauseEventSet := Option.some false
      breatheOnPause := breatheOnPauseArg
      threadSafe := true }

/-- `Animation.__init__` (lines 22-100).  Parameters `loop`,
`thread_safe`, `breathe_on_pause` are embedded as `Bool` (their setters
only check `isinstance(·, bool)`), the fallback duration as a rational
(its setter's remaining check is non-negativity), and `devices` as the
list the setter would store. -/
def Animation.init (frameData : List FrameRec) (fallback : ℚ)
    (loopArg threadSafeArg breatheArg : Bool) (devicesArg : List Device) :
    Except AnimError AnimState :=
  let s1 := if devicesArg = [] then initState else { initState with devices := devicesArg }
  let s2 :=
    if threadSafeArg then
      makeThreadSafe { s1 with breatheOnPause := breatheArg } false
    else s1
  if fallback < 0 then Except.error AnimError.invalidArgument
  else
    let s3 := { s2 with fallbackFrameDuration := fallback, loop := loopArg }
    let frames := frameData.map fun r => Frame.mk (normalizeDuration r.duration fallback)
    let s4 := { s3 with frames := frames }
    Except.ok <|
      if frames = [] then { s4 with cursor := 0 }
      else if (frames.length : Int) ≤ s4.cursor then { s4 with cursor := 0 }
      else s4

/-- The `cursor` property setter (lines 118-149): `TypeError` unless the
value is an `int` (Python: `bool` included), `ValueError` on an empty
animation unless the value is 0, `IndexError` out of `[0, len(frames))`,
otherwise stores the value. -/
def setCursor (s : AnimState) (v : PyVal) : OpResult Unit :=
  if v.isInstInt = false then .err .invalidArgument s
  else if s.frames = [] then
    if v.toInt = 0 then .ok () { s with cursor := 0 }
    else .err .emptyAnimation s
  else if 0 ≤ v.toInt ∧ v.toInt < (s.frames.length : Int) then
    .ok () { s with cursor := v.toInt }
  else .err .outOfBounds s

/-- `Animation._advance_cursor(step)` (lines 373-396): returns whether the
cursor moved, together with the new state. -/
def advanceCursor (s : AnimState) (step : Int) : Bool × AnimState :=
  if s.frames = [] then (false, s)
  else if 0 ≤ s.cursor + step ∧ s.cursor + step < (s.frames.length : Int) then
    (true, { s with cursor := s.cursor + step })
  else if s.loop then
    if (s.frames.length : Int) ≤ s.cursor + step then (true, { s with cursor := 0 })
    else (true, { s with cursor := (s.frames.length : Int) - 1 })
  else (false, s)

/-- `Animation.next_frame(device)` (lines 411-423): the returned value
records which frame index was drawn on which device, `none` when the
advance was refused and nothing was drawn. -/
def nextFrame (s : AnimState) (device : Option Device) :
    OpResult (Option (Int × Option Device)) :=
  if s.frames = [] then .err .emptyAnimation s
  else if (advanceCursor s 1).1 then
    .ok (Option.some ((advanceCursor s 1).2.cursor, device)) (advanceCursor s 1).2
  else .ok Option.none (advanceCursor s 1).2

/-- `Animation.previous_frame(device)` (lines 425-437). -/
def previousFrame (s : AnimState) (device : Option Device) :
    OpResult (Option (Int × Option Device)) :=
  if s.frames = [] then .err .emptyAnimation s
  else if (advanceCursor s (-1)).1 then
    .ok (Option.some ((advanceCursor s (-1)).2.cursor, device)) (advanceCursor s (-1)).2
  else .ok Option.none (advanceCursor s (-1)).2

/-- `Animation.play_frame(frame_index=None, device=None)` (lines
329-358): the returned value records the frame index drawn and the
device it was drawn on. -/
def playFrame (s : AnimState) (frameIndex : Option Int) (device : Option Device) :
    OpResult (Int × Option Device) :=
  if s.frames = [] then .err .emptyAnimation s
  else
    match frameIndex with
    | Option.some i =>
        if 0 ≤ i ∧ i < (s.frames.length : Int) then .ok (i, device) { s with cursor := i }
        else .err .outOfBounds s
    | Option.none => .ok (s.cursor, device) s

/-- `Animation.pause(keep_frame_displayed=True)` (lines 269-283). -/
def pause (s : AnimState) (keepFrameDisplayed : Bool) : OpResult Unit :=
  if s.threadSafe = false then .err .notThreadSafe s
  else if keepFrameDisplayed ∧ s.breathingThread = false then
    .ok () { s with playing := false, pauseEventSet := Option.some false, breathingThread := true }
  else .ok () { s with playing := false, pauseEventSet := Option.some false }

/-- `Animation.resume()` (lines 360-371): sets the playing flag and the
pause event under the lock, then joins and drops the breathing-thread
handle when one is stored. -/
def resume (s : AnimState) : OpResult Unit :=
  if s.threadSafe = false then .err .notThreadSafe s
  else if s.breathingThread then
    .ok () { s with playing := true, pauseEventSet := Option.some true, breathingThread := false }
  else .ok () { s with playing := true, pauseEventSet := Option.some true }

/-- `Animation.set_all_frame_durations(duration)` (lines 439-464). -/
def setAllFrameDurations (s : AnimState) (d : PyVal) : OpResult Unit :=
  if d.isInstNumeric = false then .err .invalidArgument s
  else if d.toQ < 0 then .err .invalidArgument s
  else if s.frames = [] then .err .emptyAnimation s
  else .ok () { s with frames := s.frames.map fun _ => Frame.mk d.toQ }

/-- Python `range(a, b)` as a list of integers. -/
def intRange (a b : Int) : List Int :=
  (List.range (b - a).toNat).map fun k : Nat => a + (k : Int)

/-- Result of `Animation.play`: an error (with the object's state when it
propagates), normal return `done`, or `fuelOut` when the given number of
`while`-loop iterations did not reach the loop exit.  `trace` records, in
order, each `(frame index, device)` pair passed to `Frame.play`. -/
inductive PlayResult where
  | err (e : AnimError) (s : AnimState)
  | done (trace : List (Int × Device)) (s : AnimState)
  | fuelOut (trace : List (Int × Device)) (s : AnimState)
deriving DecidableEq

/-- The state carried by a `play` result. -/
def PlayResult.stateOf : PlayResult → AnimState
  | .err _ s => s
  | .done _ s => s
  | .fuelOut _ s => s

/-- The inner `for i in range(self.__cursor, len(self.__frames))` body of
`play` (lines 316-320): each iteration stores `i` into the cursor and then
iterates `for device in devices` over the *parameter* `devices`; when that
parameter is `None`, CPython raises `TypeError` at that point. -/
def playPassGo (devs : Option (List Device)) :
    List Int → AnimState → List (Int × Device) → OpResult (List (Int × Device))
  | [], s, acc => .ok acc s
  | i :: rest, s, acc =>
      match devs with
      | Option.none => .err .noneNotIterable { s with cursor := i }
      | Option.some ds => playPassGo devs rest { s with cursor := i } (acc ++ ds.map fun d => (i, d))

/-- One full forward pass of `play`, from the current cursor to the last
frame index. -/
def playPass (s : AnimState) (devs : Option (List Device)) : OpResult (List (Int × Device)) :=
  playPassGo devs (intRange s.cursor (s.frames.length : Int)) s []

/-- The `while self.is_playing` loop of `play` (lines 314-327), with fuel
bounding the number of `while` iterations.  After a pass, the looping
branch resets the cursor to 0; the non-looping branch assigns the *local
variable* `active_play` (line 327) and leaves `is_playing` untouched,
exactly as the source does. -/
def playWhile (devs : Option (List Device)) :
    Nat → AnimState → List (Int × Device) → PlayResult
  | 0, s, acc => .fuelOut acc s
  | fuel + 1, s, acc =>
      if s.playing then
        match playPass s devs with
        | .err e s1 => .err e s1
        | .ok tr s1 =>
            playWhile devs fuel (if s1.loop then { s1 with cursor := 0 } else s1) (acc ++ tr)
      else .done acc s

/-- `Animation.play(devices=None)` (lines 285-327). -/
def play (s : AnimState) (devs : Option (List Device)) (fuel : Nat) : PlayResult :=
  if s.frames = [] then .err .emptyAnimation s
  else if (devs = Option.none ∨ devs = Option.some []) ∧ s.devices = [] then
    .err .noDevices s
  else playWhile devs fuel { s with playing := true } []

/-- The cursor invariant of spec §3. -/
def cursorInv (s : AnimState) : Prop :=
  (s.frames = [] → s.cursor = 0) ∧
  (s.frames ≠ [] → 0 ≤ s.cursor ∧ s.cursor < (s.frames.length : Int))

instance (s : AnimState) : Decidable (cursorInv s) := by
  unfold cursorInv; infer_instance

/-- The operations of the Animation, with their arguments, as one type:
used to state invariant preservation uniformly. -/
inductive AnimOp where
  | opSetCursor (v : PyVal)
  | opAdvance (step : Int)
  | opNextFrame (d : Option Device)
  | opPreviousFrame (d : Option Device)
  | opPlay (devs : Option (List Device)) (fuel : Nat)
  | opPlayFrame (i : Option Int) (d : Option Device)
  | opPause (keep : Bool)
  | opResume
  | opSetAllFrameDurations (d : PyVal)
deriving DecidableEq

/-- The state of the animation after running an operation (whether it
returned normally or raised). -/
def applyOp (s : AnimState) : AnimOp → AnimState
  | .opSetCursor v => (setCursor s v).stateOf
  | .opAdvance step => (advanceCursor s step).2
  | .opNextFrame d => (nextFrame s d).stateOf
  | .opPreviousFrame d => (previousFrame s d).stateOf
  | .opPlay devs fuel => (play s devs fuel).stateOf
  | .opPlayFrame i d => (playFrame s i d).stateOf
  | .opPause k => (pause s k).stateOf
  | .opResume => (resume s).stateOf
  | .opSetAllFrameDurations d => (setAllFrameDurations s d).stateOf

/-! ## Auxiliary lemmas -/

theorem length_pos_int {α : Type} {l : List α} (h : l ≠ []) : 0 < (l.length : Int) := by
  have := List.length_pos.mpr h
  omega

theorem cursorInv_set (s : AnimState) (n : Int) (hne : s.frames ≠ [])
    (h0 : 0 ≤ n) (hlt : n < (s.frames.length : Int)) :
    cursorInv { s with cursor := n } :=
  ⟨fun hf => absurd hf hne, fun _ => ⟨h0, hlt⟩⟩

theorem mem_intRange {a b i : Int} (h : i ∈ intRange a b) : a ≤ i ∧ i < b := by
  obtain ⟨k, hk, hik⟩ := List.mem_map.mp h
  rw [List.mem_range] at hk
  subst hik
  omega

theorem playPassGo_state (devs : Option (List Device)) :
    ∀ (l : List Int) (s : AnimState) (acc : List (Int × Device)),
      ∃ c : Int, (playPassGo devs l s acc).stateOf = { s with cursor := c } := by
  intro l
  induction l with
  | nil => intro s acc; exact ⟨s.cursor, rfl⟩
  | cons i rest ih =>
      intro s acc
      cases devs with
      | none => exact ⟨i, rfl⟩
      | some ds =>
          obtain ⟨c, hc⟩ := ih { s with cursor := i } (acc ++ ds.map fun d => (i, d))
          exact ⟨c, hc⟩

theorem playPassGo_inv (devs : Option (List Device)) :
    ∀ (l : List Int) (s : AnimState) (acc : List (Int × Device)),
      cursorInv s → s.frames ≠ [] →
      (∀ i ∈ l, 0 ≤ i ∧ i < (s.frames.length : Int)) →
      cursorInv (playPassGo devs l s acc).stateOf := by
  intro l
  induction l with
  | nil => intro s acc hs _ _; exact hs
  | cons i rest ih =>
      intro s acc hs hne hl
      have hi := hl i (by simp)
      cases devs with
      | none => exact cursorInv_set s i hne hi.1 hi.2
      | some ds =>
          exact ih { s with cursor := i } (acc ++ ds.map fun d => (i, d))
            (cursorInv_set s i hne hi.1 hi.2) hne (fun j hj => hl j (by simp [hj]))

theorem playPass_inv (s : AnimState) (devs : Option (List Device))
    (hs : cursorInv s) (hne : s.frames ≠ []) :
    cursorInv (playPass s devs).stateOf := by
  apply playPassGo_inv devs _ s [] hs hne
  intro i hi
  have h := mem_intRange hi
  have hc := hs.2 hne
  exact ⟨le_trans hc.1 h.1, h.2⟩

theorem playPass_fields (s : AnimState) (devs : Option (List Device)) :
    ((playPass s devs).stateOf).frames = s.frames ∧
    ((playPass s devs).stateOf).playing = s.playing ∧
    ((playPass s devs).stateOf).loop = s.loop := by
  obtain ⟨c, hc⟩ := playPassGo_state devs (intRange s.cursor (s.frames.length : Int)) s []
  rw [playPass, hc]
  exact ⟨rfl, rfl, rfl⟩

theorem playWhile_succ_err {devs : Option (List Device)} {n : Nat} {s s1 : AnimState}
    {acc : List (Int × Device)} {e : AnimError}
    (hp : s.playing = true) (hps : playPass s devs = OpResult.err e s1) :
    playWhile devs (n + 1) s acc = PlayResult.err e s1 := by
  rw [playWhile, if_pos hp, hps]

theorem playWhile_succ_ok {devs : Option (List Device)} {n : Nat} {s s1 : AnimState}
    {acc tr : List (Int × Device)}
    (hp : s.playing = true) (hps : playPass s devs = OpResult.ok tr s1) :
    playWhile devs (n + 1) s acc =
      playWhile devs n (if s1.loop = true then { s1 with cursor := 0 } else s1) (acc ++ tr) := by
  rw [playWhile, if_pos hp, hps]

theorem playWhile_inv (devs : Option (List Device)) :
    ∀ (fuel : Nat) (s : AnimState) (acc : List (Int × Device)),
      cursorInv s → s.frames ≠ [] →
      cursorInv (playWhile devs fuel s acc).stateOf := by
  intro fuel
  induction fuel with
  | zero => intro s acc hs _; exact hs
  | succ n ih =>
      intro s acc hs hne
      by_cases hp : s.playing = true
      · cases hps : playPass s devs with
        | err e s1 =>
            rw [playWhile_succ_err hp hps]
            have h1 := playPass_inv s devs hs hne
            rw [hps] at h1
            exact h1
        | ok tr s1 =>
            rw [playWhile_succ_ok hp hps]
            have h1 := playPass_inv s devs hs hne
            rw [hps] at h1
            have hf1 : s1.frames = s.frames := by
              have h2 := (playPass_fields s devs).1
              rw [hps] at h2
              exact h2
            have hne1 : s1.frames ≠ [] := hf1 ▸ hne
            by_cases hlp : s1.loop = true
            · rw [if_pos hlp]
              exact ih { s1 with cursor := 0 } (acc ++ tr)
                (cursorInv_set s1 0 hne1 le_rfl (length_pos_int hne1)) hne1
            · rw [if_neg hlp]
              exact ih s1 (acc ++ tr) h1 hne1
      · rw [playWhile, if_neg hp]
        exact hs

theorem playWhile_not_done (devs : Option (List Device)) :
    ∀ (fuel : Nat) (s : AnimState) (acc : List (Int × Device)),
      s.playing = true →
      ∀ (tr : List (Int × Device)) (t : AnimState),
        playWhile devs fuel s acc ≠ PlayResult.done tr t := by
  intro fuel
  induction fuel with
  | zero =>
      intro s acc hp tr t h
      simp [playWhile] at h
  | succ n ih =>
      intro s acc hp tr t h
      cases hps : playPass s devs with
      | err e s1 =>
          rw [playWhile_succ_err hp hps] at h
          exact PlayResult.noConfusion h
      | ok tr1 s1 =>
          rw [playWhile_succ_ok hp hps] at h
          have h2 := (playPass_fields s devs).2.1
          rw [hps] at h2
          have hp1 : s1.playing = true := (show s1.playing = s.playing from h2).trans hp
          by_cases hlp : s1.loop = true
          · rw [if_pos hlp] at h
            exact ih { s1 with cursor := 0 } (acc ++ tr1) hp1 tr t h
          · rw [if_neg hlp] at h
            exact ih s1 (acc ++ tr1) hp1 tr t h

theorem advance_inv (s : AnimState) (step : Int) (hs : cursorInv s) :
    cursorInv (advanceCursor s step).2 := by
  simp only [advanceCursor]
  by_cases hne : s.frames = []
  · rw [if_pos hne]
    exact hs
  · rw [if_neg hne]
    by_cases hin : 0 ≤ s.cursor + step ∧ s.cursor + step < (s.frames.length : Int)
    · rw [if_pos hin]
      exact cursorInv_set s _ hne hin.1 hin.2
    · rw [if_neg hin]
      by_cases hl : s.loop = true
      · rw [if_pos hl]
        by_cases hge : (s.frames.length : Int) ≤ s.cursor + step
        · rw [if_pos hge]
          exact cursorInv_set s 0 hne le_rfl (length_pos_int hne)
        · rw [if_neg hge]
          exact cursorInv_set s _ hne (by have := length_pos_int hne; omega)
            (by have := length_pos_int hne; omega)
      · rw [if_neg hl]
        exact hs

theorem play_inv (s : AnimState) (devs : Option (List Device)) (fuel : Nat)
    (hs : cursorInv s) : cursorInv (play s devs fuel).stateOf := by
  unfold play
  split
  · exact hs
  next hne =>
    split
    · exact hs
    · exact playWhile_inv devs fuel { s with playing := true } [] hs hne

theorem init_cursorInv (fd : List FrameRec) (fb : ℚ) (lp ts bp : Bool) (dv : List Device)
    (s : AnimState) (h : Animation.init fd fb lp ts bp dv = Except.ok s) : cursorInv s := by
  unfold Animation.init at h
  by_cases hdv : dv = [] <;> by_cases hts : ts = true <;>
    simp only [hdv, hts, if_true, if_false, ite_true, ite_false, makeThreadSafe, initState,
      Bool.false_eq_true, reduceIte] at h <;>
  · split at h
    · exact Except.noConfusion h
    · rw [Except.ok.injEq] at h
      subst h
      split
      next he => exact ⟨fun _ => rfl, fun hne => absurd he hne⟩
      next he =>
        split
        next hge => exact ⟨fun hemp => absurd hemp he, fun _ => ⟨le_rfl, length_pos_int he⟩⟩
        next hlt => exact ⟨fun hemp => absurd hemp he, fun _ => ⟨le_rfl, not_le.mp hlt⟩⟩

/-! ## Sample states used by the claim theorems and witnesses -/

/-- Two-frame animation in its freshly constructed state. -/
def sample2 : AnimState :=
  { initState with frames := [Frame.mk 1, Frame.mk 1] }

/-- Three-frame, non-looping animation with one device, cursor moved to 1:
the configuration of the spec example for a single forward pass. -/
def c1Anim : AnimState :=
  { initState with frames := [Frame.mk 1, Frame.mk 1, Frame.mk 1], cursor := 1, devices := [0] }

/-- One-frame animation whose own devices list is non-empty. -/
def c2Anim : AnimState :=
  { initState with frames := [Frame.mk 1], devices := [0] }

/-! ## Claim theorems -/

/-- C1: the claim says `play()` with `loop=false` performs exactly one
forward pass and returns.  The code never returns: line 327 assigns the
dead local `active_play` instead of `is_playing`, so the `while` loop
never exits; after the first pass (frames 1, 2) it replays the final frame
forever.  No fuel ever reaches the loop exit, and fuel 3 already shows
frame index 2 drawn three times. -/
theorem play_non_loop_never_returns :
    (∀ (fuel : Nat) (tr : List (Int × Device)) (t : AnimState),
        play c1Anim (Option.some [0]) fuel ≠ PlayResult.done tr t) ∧
    play c1Anim (Option.some [0]) 3 =
      PlayResult.fuelOut [(1, 0), (2, 0), (2, 0), (2, 0)]
        { c1Anim with playing := true, cursor := 2 } := by
  constructor
  · intro fuel tr t
    have h : play c1Anim (Option.some [0]) fuel =
        playWhile (Option.some [0]) fuel { c1Anim with playing := true } [] := by
      simp only [play]
      rw [if_neg (by decide), if_neg (by decide)]
    rw [h]
    exact playWhile_not_done (Option.some [0]) fuel { c1Anim with playing := true } [] rfl tr t
  · decide

/-- Witness for C1 at concrete fuel. -/
theorem play_non_loop_never_returns_witness :
    play c1Anim (Option.some [0]) 7 ≠ PlayResult.done [] initState :=
  play_non_loop_never_returns.1 7 [] initState

/-- C2: the claim says `play()` with no explicit devices argument draws on
the Animation's own devices.  The code iterates the `devices` parameter
itself (line 319), so with `devices=None` and a non-empty own list it
raises `TypeError` (iterating `None`) with `is_playing` left `True`, and
never completes a pass on the own devices. -/
theorem play_default_devices_crashes :
    play c2Anim Option.none 5 =
      PlayResult.err AnimError.noneNotIterable { c2Anim with playing := true } ∧
    (∀ (fuel : Nat) (tr : List (Int × Device)) (t : AnimState),
        play c2Anim Option.none fuel ≠ PlayResult.done tr t) := by
  constructor
  · decide
  · intro fuel tr t
    have h : play c2Anim Option.none fuel =
        playWhile Option.none fuel { c2Anim with playing := true } [] := by
      simp only [play]
      rw [if_neg (by decide), if_neg (by decide)]
    rw [h]
    exact playWhile_not_done Option.none fuel { c2Anim with playing := true } [] rfl tr t

/-- Witness for C2 at concrete fuel. -/
theorem play_default_devices_crashes_witness :
    play c2Anim Option.none 0 ≠ PlayResult.done [] initState :=
  play_default_devices_crashes.2 0 [] initState

/-- C3: the claim says constructing with `thread_safe=true` and
`breathe_on_pause=b` yields `breathe_on_pause = b`.  In the code,
`__init__` line 77 stores `b`, but line 78 calls `make_thread_safe()`
whose default parameter overwrites it with `False`; the constructed
animation always has `breathe_on_pause = false` (here shown at `b = true`,
while thread-safety itself is enabled as claimed). -/
theorem init_thread_safe_resets_breathe_on_pause :
    (Animation.init [FrameRec.mk (Option.some 1)] 1 false true true []).toOption.map
        AnimState.breatheOnPause = Option.some false ∧
    (Animation.init [FrameRec.mk (Option.some 1)] 1 false true true []).toOption.map
        AnimState.threadSafe = Option.some true := by
  constructor <;> rfl

/-- C4: every operation of the Animation — construction, set_cursor,
advance, next_frame, previous_frame, play, play_frame, pause, resume,
set_all_frame_durations — preserves the cursor invariant: a non-empty
frame list keeps `0 ≤ cursor < len(frames)`, an empty one keeps
`cursor = 0` (also when the operation raises). -/
theorem animation_ops_preserve_cursor_invariant :
    (∀ (fd : List FrameRec) (fb : ℚ) (lp ts bp : Bool) (dv : List Device) (s : AnimState),
        Animation.init fd fb lp ts bp dv = Except.ok s → cursorInv s) ∧
    (∀ (s : AnimState) (op : AnimOp), cursorInv s → cursorInv (applyOp s op)) := by
  refine ⟨init_cursorInv, ?_⟩
  intro s op hs
  cases op with
  | opSetCursor v =>
      simp only [applyOp, setCursor]
      by_cases hv : v.isInstInt = false
      · rw [if_pos hv]
        exact hs
      · rw [if_neg hv]
        by_cases he : s.frames = []
        · rw [if_pos he]
          by_cases h0 : v.toInt = 0
          · rw [if_pos h0]
            exact ⟨fun _ => rfl, fun hne => absurd he hne⟩
          · rw [if_neg h0]
            exact hs
        · rw [if_neg he]
          by_cases hin : 0 ≤ v.toInt ∧ v.toInt < (s.frames.length : Int)
          · rw [if_pos hin]
            exact cursorInv_set s _ he hin.1 hin.2
          · rw [if_neg hin]
            exact hs
  | opAdvance step => exact advance_inv s step hs
  | opNextFrame d =>
      simp only [applyOp, nextFrame]
      by_cases he : s.frames = []
      · rw [if_pos he]
        exact hs
      · rw [if_neg he]
        by_cases hm : (advanceCursor s 1).1 = true
        · rw [if_pos hm]
          exact advance_inv s 1 hs
        · rw [if_neg hm]
          exact advance_inv s 1 hs
  | opPreviousFrame d =>
      simp only [applyOp, previousFrame]
      by_cases he : s.frames = []
      · rw [if_pos he]
        exact hs
      · rw [if_neg he]
        by_cases hm : (advanceCursor s (-1)).1 = true
        · rw [if_pos hm]
          exact advance_inv s (-1) hs
        · rw [if_neg hm]
          exact advance_inv s (-1) hs
  | opPlay devs fuel => exact play_inv s devs fuel hs
  | opPlayFrame i d =>
      cases i with
      | none =>
          simp only [applyOp, playFrame]
          by_cases he : s.frames = []
          · rw [if_pos he]
            exact hs
          · rw [if_neg he]
            exact hs
      | some j =>
          simp only [applyOp, playFrame]
          by_cases he : s.frames = []
          · rw [if_pos he]
            exact hs
          · rw [if_neg he]
            by_cases hin : 0 ≤ j ∧ j < (s.frames.length : Int)
            · rw [if_pos hin]
              exact cursorInv_set s _ he hin.1 hin.2
            · rw [if_neg hin]
              exact hs
  | opPause k =>
      simp only [applyOp, pause]
      by_cases ht : s.threadSafe = false
      · rw [if_pos ht]
        exact hs
      · rw [if_neg ht]
        by_cases hk : k = true ∧ s.breathingThread = false
        · rw [if_pos hk]
          exact hs
        · rw [if_neg hk]
          exact hs
  | opResume =>
      simp only [applyOp, resume]
      by_cases ht : s.threadSafe = false
      · rw [if_pos ht]
        exact hs
      · rw [if_neg ht]
        by_cases hb : s.breathingThread = true
        · rw [if_pos hb]
          exact hs
        · rw [if_neg hb]
          exact hs
  | opSetAllFrameDurations d =>
      simp only [applyOp, setAllFrameDurations]
      by_cases h1 : d.isInstNumeric = false
      · rw [if_pos h1]
        exact hs
      · rw [if_neg h1]
        by_cases h2 : d.toQ < 0
        · rw [if_pos h2]
          exact hs
        · rw [if_neg h2]
          by_cases he : s.frames = []
          · rw [if_pos he]
            exact hs
          · rw [if_neg he]
            refine ⟨fun hm => absurd (List.map_eq_nil_iff.mp hm) he, fun _ => ?_⟩
            simp only [OpResult.stateOf, List.length_map]
            exact hs.2 he

/-- Witness for C4 at a concrete state and operation. -/
theorem animation_ops_preserve_cursor_invariant_witness :
    cursorInv (applyOp sample2 (AnimOp.opAdvance 1)) :=
  animation_ops_preserve_cursor_invariant.2 sample2 (AnimOp.opAdvance 1) (by decide)

/-- C5: on a non-empty animation, `_advance_cursor(step)` with step ±1
moves the cursor and reports movement when `cursor+step` is in bounds;
otherwise when looping it wraps (past the end to 0, before the start to
`len(frames)-1`) and reports movement; otherwise it reports no movement
and leaves the state unchanged, raising nothing. -/
theorem advance_step_spec (s : AnimState) (step : Int)
    (hstep : step = 1 ∨ step = -1) (hne : s.frames ≠ []) :
    (0 ≤ s.cursor + step ∧ s.cursor + step < (s.frames.length : Int) →
      advanceCursor s step = (true, { s with cursor := s.cursor + step })) ∧
    (s.loop = true → (s.frames.length : Int) ≤ s.cursor + step →
      advanceCursor s step = (true, { s with cursor := 0 })) ∧
    (s.loop = true → s.cursor + step < 0 →
      advanceCursor s step = (true, { s with cursor := (s.frames.length : Int) - 1 })) ∧
    (s.loop = false → (s.cursor + step < 0 ∨ (s.frames.length : Int) ≤ s.cursor + step) →
      advanceCursor s step = (false, s)) := by
  refine ⟨?_, ?_, ?_, ?_⟩
  · intro hin
    simp only [advanceCursor]
    rw [if_neg hne, if_pos hin]
  · intro hl hge
    simp only [advanceCursor]
    rw [if_neg hne,
      if_neg (by omega : ¬(0 ≤ s.cursor + step ∧ s.cursor + step < (s.frames.length : Int))),
      if_pos hl, if_pos hge]
  · intro hl hlt
    simp only [advanceCursor]
    rw [if_neg hne,
      if_neg (by omega : ¬(0 ≤ s.cursor + step ∧ s.cursor + step < (s.frames.length : Int))),
      if_pos hl,
      if_neg (by omega : ¬((s.frames.length : Int) ≤ s.cursor + step))]
  · intro hl hout
    simp only [advanceCursor]
    rw [if_neg hne,
      if_neg (by omega : ¬(0 ≤ s.cursor + step ∧ s.cursor + step < (s.frames.length : Int))),
      if_neg (by simp [hl] : ¬(s.loop = true))]

/-- Witness for C5: in-bounds step from cursor 0 on two frames. -/
theorem advance_step_spec_witness :
    advanceCursor sample2 1 = (true, { sample2 with cursor := 1 }) :=
  (advance_step_spec sample2 1 (Or.inl rfl) (by decide)).1 (by decide)

/-- C6: `set_all_frame_durations(d)` fails with `InvalidArgument` on a
non-numeric or negative `d` and with `EmptyAnimation` on an empty
animation (checked in that order), leaving the state — hence every
frame's duration — unchanged; otherwise it overwrites every frame's
duration with `d`. -/
theorem set_all_frame_durations_spec (s : AnimState) (d : PyVal) :
    (d.isInstNumeric = false →
      setAllFrameDurations s d = OpResult.err AnimError.invalidArgument s) ∧
    (d.isInstNumeric = true → d.toQ < 0 →
      setAllFrameDurations s d = OpResult.err AnimError.invalidArgument s) ∧
    (d.isInstNumeric = true → 0 ≤ d.toQ → s.frames = [] →
      setAllFrameDurations s d = OpResult.err AnimError.emptyAnimation s) ∧
    (d.isInstNumeric = true → 0 ≤ d.toQ → s.frames ≠ [] →
      setAllFrameDurations s d =
        OpResult.ok () { s with frames := s.frames.map fun _ => Frame.mk d.toQ }) := by
  refine ⟨?_, ?_, ?_, ?_⟩
  · intro h
    simp only [setAllFrameDurations]
    rw [if_pos h]
  · intro h1 h2
    simp only [setAllFrameDurations]
    rw [if_neg (by simp [h1]), if_pos h2]
  · intro h1 h2 he
    simp only [setAllFrameDurations]
    rw [if_neg (by simp [h1]), if_neg (not_lt.mpr h2), if_pos he]
  · intro h1 h2 hne
    simp only [setAllFrameDurations]
    rw [if_neg (by simp [h1]), if_neg (not_lt.mpr h2), if_neg hne]

/-- Witness for C6: a string argument is rejected as non-numeric. -/
theorem set_all_frame_durations_spec_witness :
    setAllFrameDurations sample2 (PyVal.pyStr "x") =
      OpResult.err AnimError.invalidArgument sample2 :=
  (set_all_frame_durations_spec sample2 (PyVal.pyStr "x")).1 rfl

/-- C7: the cursor setter fails with `InvalidArgument` on a value that is
not an integer (in the Python sense — `isinstance(·, int)`); on an empty
animation it accepts only 0 (leaving the cursor at 0) and otherwise fails
with `EmptyAnimation`; on a non-empty animation it fails with
`OutOfBounds` outside `[0, len(frames))` and stores the value inside;
every failure leaves the state unchanged. -/
theorem set_cursor_spec (s : AnimState) (v : PyVal) :
    (v.isInstInt = false → setCursor s v = OpResult.err AnimError.invalidArgument s) ∧
    (∀ n : Int, v = PyVal.pyInt n →
      (s.frames = [] → n ≠ 0 → setCursor s v = OpResult.err AnimError.emptyAnimation s) ∧
      (s.frames = [] → n = 0 → setCursor s v = OpResult.ok () { s with cursor := 0 }) ∧
      (s.frames ≠ [] → (n < 0 ∨ (s.frames.length : Int) ≤ n) →
        setCursor s v = OpResult.err AnimError.outOfBounds s) ∧
      (s.frames ≠ [] → 0 ≤ n → n < (s.frames.length : Int) →
        setCursor s v = OpResult.ok () { s with cursor := n })) := by
  constructor
  · intro h
    simp only [setCursor]
    rw [if_pos h]
  · rintro n rfl
    refine ⟨?_, ?_, ?_, ?_⟩
    · intro he hn
      simp only [setCursor, PyVal.isInstInt, PyVal.toInt]
      rw [if_neg (by simp), if_pos he, if_neg hn]
    · intro he hn
      subst hn
      simp only [setCursor, PyVal.isInstInt, PyVal.toInt]
      rw [if_neg (by simp), if_pos he]
      simp
    · intro hne hout
      simp only [setCursor, PyVal.isInstInt, PyVal.toInt]
      rw [if_neg (by simp), if_neg hne,
        if_neg (by omega : ¬(0 ≤ n ∧ n < (s.frames.length : Int)))]
    · intro hne h0 hlt
      simp only [setCursor, PyVal.isInstInt, PyVal.toInt]
      rw [if_neg (by simp), if_neg hne, if_pos ⟨h0, hlt⟩]

/-- Witness for C7: storing index 1 into a two-frame animation. -/
theorem set_cursor_spec_witness :
    setCursor sample2 (PyVal.pyInt 1) = OpResult.ok () { sample2 with cursor := 1 } :=
  ((set_cursor_spec sample2 (PyVal.pyInt 1)).2 1 rfl).2.2.2 (by decide) (by decide) (by decide)

/-- C8: `pause()` and `resume()` fail with `NotThreadSafe` on a
non-thread-safe animation, leaving the state unchanged; after
`make_thread_safe()` a `pause()` then `resume()` both succeed — pause
sets `is_playing = false` and clears the pause event, resume sets
`is_playing = true` and sets the pause event, so play state ends true. -/
theorem pause_resume_spec (s : AnimState) :
    (s.threadSafe = false →
      pause s true = OpResult.err AnimError.notThreadSafe s ∧
      resume s = OpResult.err AnimError.notThreadSafe s) ∧
    (∃ t1 t2 : AnimState,
      pause (makeThreadSafe s false) true = OpResult.ok () t1 ∧
      t1.playing = false ∧ t1.pauseEventSet = Option.some false ∧
      resume t1 = OpResult.ok () t2 ∧
      t2.playing = true ∧ t2.pauseEventSet = Option.some true) := by
  constructor
  · intro ht
    constructor
    · simp only [pause]
      rw [if_pos ht]
    · simp only [resume]
      rw [if_pos ht]
  · have ht : (makeThreadSafe s false).threadSafe = true := by
      simp only [makeThreadSafe]
      by_cases h : s.threadSafe = true
      · rw [if_pos h]
        exact h
      · rw [if_neg h]
    by_cases hb : (makeThreadSafe s false).breathingThread = false
    · refine ⟨{ makeThreadSafe s false with
                  playing := false, pauseEventSet := Option.some false, breathingThread := true },
              { makeThreadSafe s false with
                  playing := true, pauseEventSet := Option.some true, breathingThread := false },
              ?_, rfl, rfl, ?_, rfl, rfl⟩
      · simp only [pause]
        rw [if_neg (by simp [ht]), if_pos ⟨trivial, hb⟩]
      · simp only [resume]
        rw [if_neg (by simp [ht]), if_pos (by trivial)]
    · have hbt : (makeThreadSafe s false).breathingThread = true := by
        revert hb
        cases (makeThreadSafe s false).breathingThread <;> simp
      refine ⟨{ makeThreadSafe s false with
                  playing := false, pauseEventSet := Option.some false },
              { makeThreadSafe s false with
                  playing := true, pauseEventSet := Option.some true, breathingThread := false },
              ?_, rfl, rfl, ?_, rfl, rfl⟩
      · simp only [pause]
        rw [if_neg (by simp [ht]), if_neg (fun h => hb h.2)]
      · simp only [resume]
        rw [if_neg (by simp [ht]), if_pos hbt]

/-- Witness for C8: pause on a fresh, non-thread-safe state. -/
theorem pause_resume_spec_witness :
    pause initState true = OpResult.err AnimError.notThreadSafe initState :=
  ((pause_resume_spec initState).1 rfl).1

/-- C9: `play_frame` fails with `EmptyAnimation` on no frames; a given
out-of-range index fails with `OutOfBounds` leaving the cursor unchanged;
a given in-range index moves the cursor there and plays that frame on the
device; an omitted index plays the frame at the current cursor without
moving it. -/
theorem play_frame_spec (s : AnimState) :
    (s.frames = [] → ∀ (i : Option Int) (d : Option Device),
      playFrame s i d = OpResult.err AnimError.emptyAnimation s) ∧
    (s.frames ≠ [] → ∀ (i : Int) (d : Option Device),
      (i < 0 ∨ (s.frames.length : Int) ≤ i) →
      playFrame s (Option.some i) d = OpResult.err AnimError.outOfBounds s) ∧
    (s.frames ≠ [] → ∀ (i : Int) (d : Option Device),
      0 ≤ i → i < (s.frames.length : Int) →
      playFrame s (Option.some i) d = OpResult.ok (i, d) { s with cursor := i }) ∧
    (s.frames ≠ [] → ∀ d : Option Device,
      playFrame s Option.none d = OpResult.ok (s.cursor, d) s) := by
  refine ⟨?_, ?_, ?_, ?_⟩
  · intro he i d
    simp only [playFrame]
    rw [if_pos he]
  · intro hne i d hout
    simp only [playFrame]
    rw [if_neg hne, if_neg (by omega : ¬(0 ≤ i ∧ i < (s.frames.length : Int)))]
  · intro hne i d h0 hlt
    simp only [playFrame]
    rw [if_neg hne, if_pos ⟨h0, hlt⟩]
  · intro hne d
    simp only [playFrame]
    rw [if_neg hne]

/-- Witness for C9: index 5 on a two-frame animation is out of bounds. -/
theorem play_frame_spec_witness :
    playFrame sample2 (Option.some 5) Option.none = OpResult.err AnimError.outOfBounds sample2 :=
  (play_frame_spec sample2).2.1 (by decide) 5 Option.none (Or.inr (by decide))

/-- C10: the cursor setter's `isinstance(·, int)` check accepts Python
booleans, so on an animation with at least two frames `set_cursor(True)`
succeeds and stores cursor 1 and `set_cursor(False)` stores cursor 0
(no `InvalidArgument` is raised). -/
theorem set_cursor_accepts_bool (s : AnimState) (h2 : 2 ≤ s.frames.length) :
    setCursor s (PyVal.pyBool true) = OpResult.ok () { s with cursor := 1 } ∧
    setCursor s (PyVal.pyBool false) = OpResult.ok () { s with cursor := 0 } := by
  have hne : s.frames ≠ [] := by
    intro h
    rw [h] at h2
    simp at h2
  have hlt1 : (1 : Int) < (s.frames.length : Int) := by omega
  have hlt0 : (0 : Int) < (s.frames.length : Int) := by omega
  constructor
  · simp [setCursor, PyVal.isInstInt, PyVal.toInt, hne, hlt1]
  · simp [setCursor, PyVal.isInstInt, PyVal.toInt, hne, hlt0]

/-- Witness for C10 on a concrete two-frame animation. -/
theorem set_cursor_accepts_bool_witness :
    setCursor sample2 (PyVal.pyBool true) = OpResult.ok () { sample2 with cursor := 1 } :=
  (set_cursor_accepts_bool sample2 (by decide)).1
